import Mathlib

/-!
Shallow embedding of the `super-js/api-client` request-execution façade.

The repository has two near-duplicate client implementations plus a
mobx-observable store variant:

* `src/client.ts` (first document): the history-aware `ApiClient` with
  progress events, success/error redirects, array-of-file multipart
  support, and an opt-in `propagateError` re-throw.  Embedded below as
  `fetchModel`.
* `src/store.ts`: `ApiClientStore._stateRequest` on top of the plain
  `ApiFetcher._fetch` (no progress events, no redirects, flattened
  validation errors).  Embedded below as `storeFetchModel` and
  `stateRequestModel`.

JavaScript values that flow through the client are modelled by small
closed universes (`ParamValue` for request parameters, `JsValue` for
parsed response bodies) that cover exactly the shapes the code inspects
(`instanceof File`, `Array.isArray`, `typeof x === "string"`, falsiness,
and the `name`/`message`/`validationErrors` fields of an error body).
The network is an oracle: the transport's result (`FetchOutcome`) is an
input of the model.  URL construction and `Date.now()`-based request-key
generation are kept abstract (`genKey` is the string the template would
produce); neither is inspected by any claim.
-/

/-- HTTP verbs accepted by `_fetch` (`ApiMethodType`). -/
inductive Method where
  | GET
  | POST
  | PUT
  | DELETE
deriving DecidableEq, Repr

/-- One entry of a JS array used as a request parameter: either a `File`
instance or a non-file scalar (identified by a string payload). -/
inductive ParamEntry where
  | efile : String → ParamEntry
  | escalar : String → ParamEntry
deriving DecidableEq, Repr

/-- A JS value used as a request parameter: a `File`, a scalar, or an
array of entries (the code only ever inspects one level of nesting:
`param instanceof File`, `Array.isArray(param) && param.some(...)`). -/
inductive ParamValue where
  | file : String → ParamValue
  | scalar : String → ParamValue
  | arr : List ParamEntry → ParamValue
deriving DecidableEq, Repr

/-- Test `p instanceof File` for an array entry. -/
def entryIsFile : ParamEntry → Bool
  | .efile _ => true
  | .escalar _ => false

/-- Inject an array entry back into the parameter-value universe
(used when the entry is appended to a `FormData`). -/
def entryToValue : ParamEntry → ParamValue
  | .efile s => .file s
  | .escalar s => .scalar s

/-- From `src/client.ts` line 122: a parameter is file-like iff
`param instanceof File || Array.isArray(param) && param.some(p => p instanceof File)`. -/
def _isFile : ParamValue → Bool
  | .file _ => true
  | .scalar _ => false
  | .arr l => l.any entryIsFile

/-- The parsed-body universe: `undefined`, `null`, a string, or an
object of which the client reads the `name` / `message` /
`validationErrors` fields (each possibly absent). -/
structure ErrShape where
  name : Option String := none
  message : Option String := none
  validationErrors : Option (List (String × List String)) := none
deriving DecidableEq, Repr

/-- A JS value produced by parsing a response body. -/
inductive JsValue where
  | vundef
  | vnull
  | vstr : String → JsValue
  | vobj : ErrShape → JsValue
deriving DecidableEq, Repr

/-- Test `typeof v === "string"`. -/
def jsIsString : JsValue → Bool
  | .vstr _ => true
  | _ => false

/-- JS falsiness of a parsed body (`!parsedResponse`). -/
def jsFalsy : JsValue → Bool
  | .vundef => true
  | .vnull => true
  | .vstr s => s == ""
  | .vobj _ => false

/-- Whether `sub` is an initial segment of `l`. -/
def charsStartWith : List Char → List Char → Bool
  | [], _ => true
  | _ :: _, [] => false
  | a :: as, b :: bs => a == b && charsStartWith as bs

/-- Whether `sub` occurs contiguously somewhere in `l`. -/
def charsContain (sub : List Char) : List Char → Bool
  | [] => charsStartWith sub []
  | c :: rest => charsStartWith sub (c :: rest) || charsContain sub rest

/-- JS `String.prototype.includes`: `sub` occurs as a contiguous substring
of `s`. -/
def jsIncludes (s sub : String) : Bool := charsContain sub.toList s.toList

instance {ε α : Type} [DecidableEq ε] [DecidableEq α] : DecidableEq (Except ε α)
  | .ok a, .ok b => decidable_of_iff (a = b) (by simp)
  | .ok _, .error _ => .isFalse (by simp)
  | .error _, .ok _ => .isFalse (by simp)
  | .error a, .error b => decidable_of_iff (a = b) (by simp)

/-- A `Response` as observed by the client: `ok` flag, status code and
text, the `content-type` header (`none` = header absent), what
`.text()` resolves to, and what `.json()` resolves to (`Except.error`
models a rejected `.json()` promise, e.g. a syntax error). -/
structure Response where
  ok : Bool
  status : Nat
  statusText : String
  contentType : Option String
  textBody : String
  jsonBody : Except String JsValue
deriving DecidableEq, Repr

/-- Embedding of `src/client.ts` lines 54–63 (`parseResponse`): dispatch on the
declared content type; note the code tests `includes('text')` BEFORE
`includes('json')`; a missing or empty (falsy) content type yields
`null`. -/
def parseResponse (r : Response) : Except String JsValue :=
  match r.contentType with
  | some ct =>
    if ct != "" then
      if jsIncludes ct "text" then .ok (.vstr r.textBody)
      else if jsIncludes ct "json" then r.jsonBody
      else .ok .vnull
    else .ok .vnull
  | none => .ok .vnull

/-- Option `successRedirectTo`: a literal path or a function of the
parsed response body (`src/client.ts` line 13). -/
inductive SuccessRedirect where
  | lit : String → SuccessRedirect
  | fn : (JsValue → String) → SuccessRedirect

/-- The normalized failure object (`class ResponseError extends Error`,
`src/client.ts` lines 41–52).  The constructor calls
`super(props.message)` and assigns `status` and `validationErrors`; it
never assigns `this.name`, so instances keep the inherited
`Error.prototype.name`, i.e. the string `"Error"`. -/
structure ResponseError where
  name : String
  message : String
  status : Nat
  validationErrors : List (String × List String)
deriving DecidableEq, Repr

/-- The property bag passed to `new ResponseError({...})`:
`name`/`message` may be `undefined` when the parsed body lacked them. -/
structure ResponseErrorProps where
  name : Option String
  message : Option String
  status : Nat
  validationErrors : List (String × List String)
deriving DecidableEq, Repr

/-- The `ResponseError` constructor of `src/client.ts`: `props.name` is
dropped (never assigned), `super(undefined)` leaves `message` as the
inherited empty string, `validationErrors` is stored as given. -/
def mkResponseError (props : ResponseErrorProps) : ResponseError :=
  { name := "Error"
    message := props.message.getD ""
    status := props.status
    validationErrors := props.validationErrors }

/-- An exception observed by the `catch` block of `_fetch`: either the
`ResponseError` thrown on a non-2xx response, or any other JS error
(a transport failure from `fetch`, or a rejected `.json()`). -/
inductive JsError where
  | respErr : ResponseError → JsError
  | jsErr : String → JsError
deriving DecidableEq, Repr

/-- Option `errorRedirectTo`: a literal path or a function of the
caught error (`src/client.ts` line 12). -/
inductive ErrorRedirect where
  | lit : String → ErrorRedirect
  | fn : (JsError → String) → ErrorRedirect

/-- Embedding of `ApiFetchOptions` of the history-aware client.  A `*Msg` field is
`none` when the key is absent from the options object, `some none` when
the key is present with value `undefined`, and `some (some s)` when it
holds the string `s` — `reportRequestProgress` gates on
`options.hasOwnProperty`, so the outer `Option` is what matters there.
`propagateError` is only ever tested for truthiness, so absent and
`false` coincide. -/
structure ApiFetchOptions where
  requestKey : Option String := none
  successMsg : Option (Option String) := none
  errorMsg : Option (Option String) := none
  processingMsg : Option (Option String) := none
  errorRedirectTo : Option ErrorRedirect := none
  successRedirectTo : Option SuccessRedirect := none
  propagateError : Bool := false

/-- Embedding of `IRequestProps`: path, params and options, the latter two defaulting
to empty (`const {path, params = {}, options = {}} = requestProps`). -/
structure RequestProps where
  path : String
  params : List (String × ParamValue) := []
  options : ApiFetchOptions := {}

/-- Client construction state relevant to `_fetch`: whether a `history`
collaborator was supplied (`_redirectTo` is a no-op without one). -/
structure ClientConfig where
  hasHistory : Bool
deriving DecidableEq, Repr

/-- Base-URL construction of the history-aware client
(`src/client.ts` line 78): `host` + `:port` when `port` is truthy +
`/version` when `version` is truthy. -/
def mkBaseUrl (host : String) (port : Option Nat) (version : Option String) : String :=
  host
    ++ (match port with
        | some p => if p != 0 then ":" ++ toString p else ""
        | none => "")
    ++ (match version with
        | some v => if v != "" then "/" ++ v else ""
        | none => "")

/-- The result of the transport: `fetch(request)` either resolves to a
`Response` or rejects (e.g. network failure). -/
inductive FetchOutcome where
  | thrown : String → FetchOutcome
  | resp : Response → FetchOutcome
deriving DecidableEq, Repr

/-- One call to `this._onRequestProgress(requestKey, {type, message})`. -/
structure ProgressEvent where
  requestKey : String
  ptype : String
  message : Option String
deriving DecidableEq, Repr

/-- The body of the outgoing `Request`: absent, a JSON string, or
multipart form data (kept as the ordered list of appended pairs). -/
inductive RequestBody where
  | noBody
  | jsonBody : String → RequestBody
  | formDataBody : List (String × ParamValue) → RequestBody
deriving DecidableEq, Repr

/-- The outgoing request as built by `_fetch` (URL construction is not
modelled; no claim mentions it). -/
structure BuiltRequest where
  method : Method
  headers : List (String × String)
  body : RequestBody
deriving DecidableEq, Repr

/-- Minimal JSON escaping used by the model's `JSON.stringify`. -/
def jsonEscape (s : String) : String :=
  s.foldl
    (fun acc c =>
      acc ++ if c == Char.ofNat 34 then "\\\"" else if c == Char.ofNat 92 then "\\\\" else String.singleton c)
    ""

/-- Encoding `JSON.stringify` of an array entry (a `File` serializes as an empty
object). -/
def stringifyEntry : ParamEntry → String
  | .efile _ => "\x7b\x7d"
  | .escalar s => "\"" ++ jsonEscape s ++ "\""

/-- Encoding `JSON.stringify` of a parameter value. -/
def stringifyValue : ParamValue → String
  | .file _ => "\x7b\x7d"
  | .scalar s => "\"" ++ jsonEscape s ++ "\""
  | .arr l => "[" ++ String.intercalate "," (l.map stringifyEntry) ++ "]"

/-- Encoding `JSON.stringify(params)` over the ordered key/value list. -/
def jsonStringify (params : List (String × ParamValue)) : String :=
  "\x7b"
    ++ String.intercalate ","
        (params.map fun p => "\"" ++ jsonEscape p.1 ++ "\":" ++ stringifyValue p.2)
    ++ "\x7d"

/-- The indexed `formData.append` loop for a file-bearing array:
`params[paramCode].forEach((fileParam, fileParamIx) =>
formData.append(paramCode + "[" + fileParamIx + "]", fileParam))`,
started at index `i`. -/
def indexFiles (k : String) (i : Nat) : List ParamEntry → List (String × ParamValue)
  | [] => []
  | e :: rest => (k ++ "[" ++ toString i ++ "]", entryToValue e) :: indexFiles k (i + 1) rest

/-- The `FormData` built by `_getBody` when some parameter is file-like
(`src/client.ts` lines 128–140): a file-bearing array is appended entry
by entry under indexed field names; every other parameter is appended
under its own name. -/
def buildFormData (params : List (String × ParamValue)) : List (String × ParamValue) :=
  (params.map fun p =>
    match p.2 with
    | .arr l => if _isFile (.arr l) then indexFiles p.1 0 l else [p]
    | _ => [p]).flatten

/-- Embedding of `_getBody` (`src/client.ts` lines 127–144): multipart when any
parameter is file-like, otherwise the JSON-encoded params for non-GET
and no body for GET. -/
def _getBody (type : Method) (params : List (String × ParamValue)) : RequestBody :=
  if params.any fun p => _isFile p.2 then .formDataBody (buildFormData params)
  else if type != .GET then .jsonBody (jsonStringify params)
  else .noBody

/-- The headers built by `_fetch` (`src/client.ts` lines 146–150):
always `Accept: application/json`, plus `Content-Type: application/json`
exactly when no parameter is file-like. -/
def mkHeaders (params : List (String × ParamValue)) : List (String × String) :=
  [("Accept", "application/json")]
    ++ (if !(params.any fun p => _isFile p.2) then
          [("Content-Type", "application/json")]
        else [])

/-- The `Request` constructed by `_fetch` before dispatch. -/
def mkRequest (type : Method) (params : List (String × ParamValue)) : BuiltRequest :=
  { method := type, headers := mkHeaders params, body := _getBody type params }

/-- The request key (`src/client.ts` line 98):
`options.requestKey ? options.requestKey : Date.now() + "_" + type + "_" + path`;
`genKey` stands for the freshly generated composite. -/
def requestKeyOf (options : ApiFetchOptions) (genKey : String) : String :=
  match options.requestKey with
  | some k => if k != "" then k else genKey
  | none => genKey

/-- Embedding of `reportRequestProgress` (`src/client.ts` lines 101–108): the event
is forwarded iff `options.hasOwnProperty(type + "Msg")`; the message is
whatever value the call site passed (possibly `undefined`). -/
def reportRequestProgress (present : Bool) (requestKey ptype : String)
    (message : Option String) : List ProgressEvent :=
  if present then [{ requestKey := requestKey, ptype := ptype, message := message }] else []

/-- Accessor `parsedResponse.name`. -/
def jsName : JsValue → Option String
  | .vobj e => e.name
  | _ => none

/-- Normalization of a failed response's parsed body
(`src/client.ts` lines 163–181): a string body is wrapped with the
status text as name; a falsy body becomes the `Unknown error` sentinel;
otherwise the object's own fields are used, `validationErrors`
defaulting to the empty mapping (note `\x7b\x7d` is truthy in JS, so a
present-but-empty mapping is kept as is — same result). -/
def wrapErrorBody (r : Response) (parsed : JsValue) : ResponseErrorProps :=
  if jsIsString parsed then
    { name := some r.statusText
      message := some (match parsed with | .vstr s => s | _ => "")
      status := r.status
      validationErrors := [] }
  else if jsFalsy parsed then
    { name := some "Unknown error"
      message := some "Unknown error"
      status := r.status
      validationErrors := [] }
  else
    { name := jsName parsed
      message := match parsed with | .vobj e => e.message | _ => none
      status := r.status
      validationErrors := match parsed with | .vobj e => e.validationErrors.getD [] | _ => [] }

/-- JS truthiness of `options.errorRedirectTo` (a function is always
truthy; a literal is truthy iff non-empty). -/
def errorRedirectTruthy : Option ErrorRedirect → Bool
  | none => false
  | some (.lit s) => s != ""
  | some (.fn _) => true

/-- JS truthiness of `options.successRedirectTo`. -/
def successRedirectTruthy : Option SuccessRedirect → Bool
  | none => false
  | some (.lit s) => s != ""
  | some (.fn _) => true

/-- The `history.push` calls performed by the error-redirect step
(`src/client.ts` lines 206–210 together with `_redirectTo`, lines
89–91): gated first on the truthiness of `options.errorRedirectTo`,
then on `this.history && targetUrl`. -/
def errorRedirectPushes (cfg : ClientConfig) (options : ApiFetchOptions)
    (err : JsError) : List String :=
  if errorRedirectTruthy options.errorRedirectTo then
    let target := match options.errorRedirectTo with
      | some (.fn f) => f err
      | some (.lit s) => s
      | none => ""
    if cfg.hasHistory && target != "" then [target] else []
  else []

/-- The `history.push` calls performed by the success-redirect step
(`src/client.ts` lines 189–193 together with `_redirectTo`). -/
def successRedirectPushes (cfg : ClientConfig) (options : ApiFetchOptions)
    (parsed : JsValue) : List String :=
  if successRedirectTruthy options.successRedirectTo then
    let target := match options.successRedirectTo with
      | some (.fn f) => f parsed
      | some (.lit s) => s
      | none => ""
    if cfg.hasHistory && target != "" then [target] else []
  else []

/-- Everything observable about one `_fetch` call: the request handed
to the transport, the progress events emitted (in order), the paths
pushed to the router, and the promise outcome (`.error` = rejection,
`.ok .vundef` = a swallowed failure resolving `undefined`). -/
structure FetchResult where
  request : BuiltRequest
  events : List ProgressEvent
  pushes : List String
  outcome : Except JsError JsValue
deriving DecidableEq, Repr

/-- The `catch` block of `_fetch` (`src/client.ts` lines 198–211): an
error progress event when the `errorMsg` key is present, then — in this
order — `if (options.propagateError) throw err;` and only afterwards
the error redirect, so a propagated error skips the redirect. -/
def catchBlock (cfg : ClientConfig) (options : ApiFetchOptions) (requestKey : String)
    (builtReq : BuiltRequest) (evBefore : List ProgressEvent) (err : JsError) : FetchResult :=
  let evError :=
    reportRequestProgress options.errorMsg.isSome requestKey "error" options.errorMsg.join
  if options.propagateError then
    { request := builtReq, events := evBefore ++ evError, pushes := [], outcome := .error err }
  else
    { request := builtReq
      events := evBefore ++ evError
      pushes := errorRedirectPushes cfg options err
      outcome := .ok .vundef }

/-- Embedding of `ApiClient._fetch` of the history-aware client
(`src/client.ts` lines 93–213), as a function of the client state, the
call arguments, the generated request key, and the transport's result. -/
def fetchModel (cfg : ClientConfig) (type : Method) (req : RequestProps)
    (genKey : String) (outcome : FetchOutcome) : FetchResult :=
  let options := req.options
  let requestKey := requestKeyOf options genKey
  let evProcessing :=
    reportRequestProgress options.processingMsg.isSome requestKey "processing"
      options.processingMsg.join
  let builtReq := mkRequest type req.params
  match outcome with
  | .thrown e => catchBlock cfg options requestKey builtReq evProcessing (.jsErr e)
  | .resp r =>
    match parseResponse r with
    | .error e => catchBlock cfg options requestKey builtReq evProcessing (.jsErr e)
    | .ok parsed =>
      if !r.ok then
        catchBlock cfg options requestKey builtReq evProcessing
          (.respErr (mkResponseError (wrapErrorBody r parsed)))
      else
        { request := builtReq
          events := evProcessing
            ++ reportRequestProgress options.successMsg.isSome requestKey "success"
                options.successMsg.join
          pushes := successRedirectPushes cfg options parsed
          outcome := .ok parsed }

/-- Whether a call with transport result `outcome` reaches the success
branch of `_fetch` (response `ok` and body parsing did not throw). -/
def callSucceeds : FetchOutcome → Bool
  | .thrown _ => false
  | .resp r =>
    r.ok && (match parseResponse r with | .ok _ => true | .error _ => false)

/-- The exception the `catch` block of `_fetch` receives on a failing
call (meaningful whenever `callSucceeds outcome = false`). -/
def caughtError : FetchOutcome → JsError
  | .thrown e => .jsErr e
  | .resp r =>
    match parseResponse r with
    | .error e => .jsErr e
    | .ok parsed => .respErr (mkResponseError (wrapErrorBody r parsed))

/-- Flattening of the validation-error mapping performed by the
`ResponseError` constructor of the store's fetcher
(`Object.keys(ve).reduce((_, k) => { _.push(...ve[k]); return _ }, [])`). -/
def flattenValidationErrors (ve : List (String × List String)) : List String :=
  ve.foldl (fun acc p => acc ++ p.2) []

/-- The `ResponseError` of the store's fetcher: same constructor shape,
but `validationErrors` is flattened into one list of messages; `name`
is dropped here as well. -/
structure ResponseErrorFlat where
  name : String
  message : String
  status : Nat
  validationErrors : List String
deriving DecidableEq, Repr

/-- The store fetcher's `ResponseError` constructor. -/
def mkResponseErrorFlat (props : ResponseErrorProps) : ResponseErrorFlat :=
  { name := "Error"
    message := props.message.getD ""
    status := props.status
    validationErrors := flattenValidationErrors props.validationErrors }

/-- An exception propagating out of the store fetcher's `_fetch`. -/
inductive StoreError where
  | respErr : ResponseErrorFlat → StoreError
  | jsErr : String → StoreError
deriving DecidableEq, Repr

/-- Embedding of `ApiFetcher._fetch` of the store variant (`src/store.ts`, fetcher
document, lines 118–182): no progress events, no redirects, no `catch`;
a non-2xx response parses its body inside the failure branch and throws
the flattened `ResponseError`; a 2xx response resolves with the parsed
body.  The outgoing request uses the same body/header rules with the
simpler `params[k] instanceof File` test (no array case) — request
construction is not re-modelled here since no claim touches it for this
variant. -/
def storeFetchModel (outcome : FetchOutcome) : Except StoreError JsValue :=
  match outcome with
  | .thrown e => .error (.jsErr e)
  | .resp r =>
    if !r.ok then
      match parseResponse r with
      | .error e => .error (.jsErr e)
      | .ok parsed => .error (.respErr (mkResponseErrorFlat (wrapErrorBody r parsed)))
    else
      match parseResponse r with
      | .error e => .error (.jsErr e)
      | .ok parsed => .ok parsed

/-- The two observable fields of `ApiClientStore`
(`@observable successMessage / errorMessage`). -/
structure StoreState where
  successMessage : String
  errorMessage : String
deriving DecidableEq, Repr

/-- Field initializers of `ApiClientStore`: both messages start empty. -/
def initialStoreState : StoreState := { successMessage := "", errorMessage := "" }

/-- The per-call extras destructured by `_stateRequest`
(`const {consumeError, successMessage, errorMessage, ..._requestProps}`).
`consumeError` is only tested for truthiness, so absent and `false`
coincide; the messages are `none` when absent. -/
structure StateRequestProps where
  path : String
  params : List (String × ParamValue) := []
  consumeError : Bool := false
  successMessage : Option String := none
  errorMessage : Option String := none
deriving Repr

/-- Embedding of `ApiClientStore._stateRequest` (`src/store.ts` lines 25–40) as a
state transformer: given the result of `this._fetch(type, _requestProps)`,
it sets `successMessage` on success when the option is truthy
(`if (successMessage) this.setSuccessMessage(successMessage)`), sets
`errorMessage` on failure when that option is truthy, and re-throws the
error unless `consumeError` is truthy (a consumed failure resolves
`undefined`, modelled as `.ok none`). -/
def stateRequestModel (st : StoreState) (props : StateRequestProps)
    (fres : Except StoreError JsValue) : StoreState × Except StoreError (Option JsValue) :=
  match fres with
  | .ok v =>
    let st1 := match props.successMessage with
      | some m => if m != "" then { st with successMessage := m } else st
      | none => st
    (st1, .ok (some v))
  | .error e =>
    let st1 := match props.errorMessage with
      | some m => if m != "" then { st with errorMessage := m } else st
      | none => st
    if props.consumeError then (st1, .ok none) else (st1, .error e)

/-! ### Concrete fixtures used by counterexamples and witnesses -/

/-- A 404 response with the JSON body
`\x7b"name":"NotFound","message":"missing","validationErrors":\x7b\x7d\x7d`. -/
def resp404 : Response :=
  { ok := false, status := 404, statusText := "Not Found",
    contentType := some "application/json", textBody := "",
    jsonBody := .ok (.vobj
      { name := some "NotFound", message := some "missing", validationErrors := some [] }) }

/-- A 500 response with no content type and no parseable body. -/
def resp500 : Response :=
  { ok := false, status := 500, statusText := "Internal Server Error",
    contentType := none, textBody := "", jsonBody := .error "unexpected end of input" }

/-- A 200 response whose content type contains both `text` and `json`. -/
def respTextJson : Response :=
  { ok := true, status := 200, statusText := "OK",
    contentType := some "text/json", textBody := "rawtext",
    jsonBody := .ok (.vobj { name := some "obj", message := none, validationErrors := none }) }

/-- A plain successful JSON response. -/
def respOk : Response :=
  { ok := true, status := 200, statusText := "OK",
    contentType := some "application/json", textBody := "",
    jsonBody := .ok (.vobj { name := some "ok", message := none, validationErrors := none }) }

/-! ### Helper lemmas about the model -/

theorem catchBlock_request (cfg : ClientConfig) (o : ApiFetchOptions) (k : String)
    (b : BuiltRequest) (ev : List ProgressEvent) (e : JsError) :
    (catchBlock cfg o k b ev e).request = b := by
  unfold catchBlock
  split <;> rfl

theorem catchBlock_events (cfg : ClientConfig) (o : ApiFetchOptions) (k : String)
    (b : BuiltRequest) (ev : List ProgressEvent) (e : JsError) :
    (catchBlock cfg o k b ev e).events
      = ev ++ reportRequestProgress o.errorMsg.isSome k "error" o.errorMsg.join := by
  unfold catchBlock
  split <;> rfl

theorem catchBlock_propagate (cfg : ClientConfig) (o : ApiFetchOptions) (k : String)
    (b : BuiltRequest) (ev : List ProgressEvent) (e : JsError)
    (h : o.propagateError = true) :
    (catchBlock cfg o k b ev e).outcome = .error e ∧ (catchBlock cfg o k b ev e).pushes = [] := by
  unfold catchBlock
  simp [h]

theorem catchBlock_swallow (cfg : ClientConfig) (o : ApiFetchOptions) (k : String)
    (b : BuiltRequest) (ev : List ProgressEvent) (e : JsError)
    (h : o.propagateError = false) :
    (catchBlock cfg o k b ev e).outcome = .ok .vundef
      ∧ (catchBlock cfg o k b ev e).pushes = errorRedirectPushes cfg o e := by
  unfold catchBlock
  simp [h]

/-- On any failing call, `_fetch` runs its `catch` block on the caught
error, after the processing-phase report. -/
theorem fetchModel_fail (cfg : ClientConfig) (type : Method) (req : RequestProps)
    (genKey : String) (outcome : FetchOutcome) (h : callSucceeds outcome = false) :
    fetchModel cfg type req genKey outcome
      = catchBlock cfg req.options (requestKeyOf req.options genKey) (mkRequest type req.params)
          (reportRequestProgress req.options.processingMsg.isSome
            (requestKeyOf req.options genKey) "processing" req.options.processingMsg.join)
          (caughtError outcome) := by
  cases outcome with
  | thrown e => simp [fetchModel, caughtError]
  | resp r =>
    cases hp : parseResponse r with
    | error e => simp [fetchModel, caughtError, hp]
    | ok parsed =>
      simp [callSucceeds, hp] at h
      simp [fetchModel, caughtError, hp, h]

/-- On any successful call, `_fetch` reports the success phase, performs
the success redirect on the parsed body and resolves with it. -/
theorem fetchModel_succ (cfg : ClientConfig) (type : Method) (req : RequestProps)
    (genKey : String) (r : Response) (parsed : JsValue)
    (hp : parseResponse r = .ok parsed) (hok : r.ok = true) :
    fetchModel cfg type req genKey (.resp r)
      = { request := mkRequest type req.params
          events :=
            reportRequestProgress req.options.processingMsg.isSome
              (requestKeyOf req.options genKey) "processing" req.options.processingMsg.join
            ++ reportRequestProgress req.options.successMsg.isSome
                (requestKeyOf req.options genKey) "success" req.options.successMsg.join
          pushes := successRedirectPushes cfg req.options parsed
          outcome := .ok parsed } := by
  simp [fetchModel, hp, hok]

/-- A call succeeds exactly when the transport resolved, the body parse
did not throw, and the response was 2xx. -/
theorem callSucceeds_true {outcome : FetchOutcome} (h : callSucceeds outcome = true) :
    ∃ r parsed, outcome = .resp r ∧ parseResponse r = .ok parsed ∧ r.ok = true := by
  cases outcome with
  | thrown e => simp [callSucceeds] at h
  | resp r =>
    cases hp : parseResponse r with
    | error e => simp [callSucceeds, hp] at h
    | ok parsed =>
      simp [callSucceeds, hp] at h
      exact ⟨r, parsed, rfl, hp, h⟩

/-- The request handed to the transport does not depend on the outcome. -/
theorem fetchModel_request (cfg : ClientConfig) (type : Method) (req : RequestProps)
    (genKey : String) (outcome : FetchOutcome) :
    (fetchModel cfg type req genKey outcome).request = mkRequest type req.params := by
  cases h : callSucceeds outcome with
  | false => rw [fetchModel_fail cfg type req genKey outcome h, catchBlock_request]
  | true =>
    obtain ⟨r, parsed, rfl, hp, hok⟩ := callSucceeds_true h
    rw [fetchModel_succ cfg type req genKey r parsed hp hok]

/-! ### Claim theorems -/

/-- C1: for a failing call whose response is 404 with JSON body
`\x7b"name":"NotFound","message":"missing","validationErrors":\x7b\x7d\x7d`,
the call fails with a `ResponseError` whose `status` is 404 and whose
`message` is `"missing"` — but whose `name` is the inherited `"Error"`,
NOT `"NotFound"`: the constructor is handed `name: parsedResponse.name`
and silently drops it, so the claimed `name === "NotFound"` fails. -/
theorem c1_notfound_error_fields :
    (fetchModel ⟨false⟩ .GET { path := "/x", options := { propagateError := true } } "k"
        (.resp resp404)).outcome
      = .error (.respErr
          { name := "Error", message := "missing", status := 404, validationErrors := [] })
    ∧ ("Error" : String) ≠ "NotFound" := by
  constructor
  · rfl
  · decide

/-- C6: for a failing call whose response is 500 with no parseable body
(content type absent), the substituted sentinel gives the `ResponseError`
the `message` `"Unknown error"` — but its `name` is the inherited
`"Error"`, not `"Unknown error"`, because the constructor drops the
`name` it is handed. -/
theorem c6_unknown_error_fields :
    (fetchModel ⟨false⟩ .POST { path := "/x", options := { propagateError := true } } "k"
        (.resp resp500)).outcome
      = .error (.respErr
          { name := "Error", message := "Unknown error", status := 500,
            validationErrors := [] })
    ∧ ("Error" : String) ≠ "Unknown error" := by
  constructor
  · rfl
  · decide

/-- C3 counterexample: a content type containing both `"json"` and
`"text"` (here `text/json`) is read as TEXT, not parsed as JSON — the
code tests `includes('text')` first, so the claimed json-over-text
precedence fails. -/
theorem c3_both_reads_text :
    jsIncludes "text/json" "json" = true
    ∧ jsIncludes "text/json" "text" = true
    ∧ parseResponse respTextJson = .ok (.vstr "rawtext")
    ∧ parseResponse respTextJson ≠ respTextJson.jsonBody := by
  refine ⟨by decide, by decide, rfl, by decide⟩

/-- C3 (amended): the parsed body is determined by the declared content
type with TEXT taking precedence: if it contains `"text"` the body is
read as text; otherwise if it contains `"json"` it is parsed as JSON;
otherwise — including when the content-type header is absent or the
empty string — the parsed body is `null`; uniformly for success and
error responses (`parseResponse` is applied to every response). -/
theorem c3_content_type_precedence (r : Response) :
    (∀ ct, r.contentType = some ct → ct ≠ "" →
        (jsIncludes ct "text" = true → parseResponse r = .ok (.vstr r.textBody))
        ∧ (jsIncludes ct "text" = false → jsIncludes ct "json" = true →
            parseResponse r = r.jsonBody)
        ∧ (jsIncludes ct "text" = false → jsIncludes ct "json" = false →
            parseResponse r = .ok .vnull))
    ∧ (r.contentType = none → parseResponse r = .ok .vnull)
    ∧ (r.contentType = some "" → parseResponse r = .ok .vnull) := by
  refine ⟨fun ct hct hne => ?_, fun hct => ?_, fun hct => ?_⟩
  · refine ⟨fun h1 => ?_, fun h1 h2 => ?_, fun h1 h2 => ?_⟩ <;>
      simp [parseResponse, hct, hne, h1]
    · simp [h2]
    · simp [h2]
  · simp [parseResponse, hct]
  · simp [parseResponse, hct]

/-- C3 witness: the amended precedence applied to a concrete
`application/json` response (JSON branch) and to a concrete response
with no content-type header (null branch). -/
theorem c3_content_type_precedence_witness :
    parseResponse respOk = respOk.jsonBody ∧ parseResponse resp500 = .ok .vnull := by
  constructor
  · exact ((c3_content_type_precedence respOk).1 "application/json" rfl (by decide)).2.1
      (by decide) (by decide)
  · exact (c3_content_type_precedence resp500).2.1 rfl

/-- Options used by the C2 counterexample: an error message, an error
redirect, and `propagateError` set. -/
def c2opts : ApiFetchOptions :=
  { errorMsg := some (some "boom"), propagateError := true,
    errorRedirectTo := some (.lit "/err") }

/-- C2 counterexample: on a failing call with `propagateError` set AND
`errorRedirectTo` supplied (router configured), the error is re-thrown
and the error redirect is NOT performed — `throw err` precedes the
redirect in the `catch` block, so re-throwing suppresses it, contrary
to the claim.  The same call with `propagateError` unset does push the
redirect path. -/
theorem c2_rethrow_suppresses_redirect :
    (fetchModel ⟨true⟩ .GET { path := "/x", options := c2opts } "k" (.resp resp404)).pushes = []
    ∧ (fetchModel ⟨true⟩ .GET { path := "/x", options := c2opts } "k"
        (.resp resp404)).outcome
        = .error (.respErr
            { name := "Error", message := "missing", status := 404, validationErrors := [] })
    ∧ (fetchModel ⟨true⟩ .GET
        { path := "/x", options := { c2opts with propagateError := false } } "k"
        (.resp resp404)).pushes = ["/err"] := by
  refine ⟨rfl, rfl, rfl⟩

/-- C2 (amended): on every failing call the error progress event (when
the `errorMsg` key is present) is emitted first; then, if
`propagateError` is set, the error is re-thrown and the error redirect
is SKIPPED; only when `propagateError` is unset is the error redirect
performed (and the call resolves `undefined`).  Re-throwing therefore
suppresses the error redirect. -/
theorem c2_failure_handling (cfg : ClientConfig) (type : Method) (req : RequestProps)
    (genKey : String) (outcome : FetchOutcome) (h : callSucceeds outcome = false) :
    ((fetchModel cfg type req genKey outcome).events.filter
        (fun ev => ev.ptype == "error")
      = if req.options.errorMsg.isSome then
          [{ requestKey := requestKeyOf req.options genKey, ptype := "error",
             message := req.options.errorMsg.join }]
        else [])
    ∧ (req.options.propagateError = true →
        (fetchModel cfg type req genKey outcome).outcome = .error (caughtError outcome)
        ∧ (fetchModel cfg type req genKey outcome).pushes = [])
    ∧ (req.options.propagateError = false →
        (fetchModel cfg type req genKey outcome).outcome = .ok .vundef
        ∧ (fetchModel cfg type req genKey outcome).pushes
            = errorRedirectPushes cfg req.options (caughtError outcome)) := by
  rw [fetchModel_fail cfg type req genKey outcome h]
  refine ⟨?_, fun hp => ?_, fun hp => ?_⟩
  · rw [catchBlock_events]
    cases req.options.processingMsg <;> cases req.options.errorMsg <;>
      simp [reportRequestProgress]
  · exact catchBlock_propagate _ _ _ _ _ _ hp
  · exact catchBlock_swallow _ _ _ _ _ _ hp

/-- C2 witness: a concrete failing call with `propagateError` unset, an
`errorMsg` and a literal error redirect: the redirect is performed. -/
theorem c2_failure_handling_witness :
    (fetchModel ⟨true⟩ .GET
        { path := "/x", options := { c2opts with propagateError := false } } "k"
        (.resp resp404)).pushes = ["/err"] := by
  have h :=
    (c2_failure_handling ⟨true⟩ .GET
        { path := "/x", options := { c2opts with propagateError := false } } "k"
        (.resp resp404) (by decide)).2.2 rfl
  exact h.2.trans rfl

/-- C5 counterexample: a call with the `successMsg` key present whose
response fails (404): the claimed iff demands a success progress event
because the key is present, but zero progress events fire at all. -/
theorem c5_success_key_present_failing_call :
    (fetchModel ⟨false⟩ .GET { path := "/x", options := { successMsg := some (some "yay") } }
        "k" (.resp resp404)).events = [] := rfl

/-- C5 (amended): for every call, the processing event fires iff the
`processingMsg` key is present; the success event fires iff the
`successMsg` key is present AND the call succeeds; the error event
fires iff the `errorMsg` key is present AND the call fails.  Presence
of the key — not its value — is what gates: the event carries whatever
value the key holds, including `undefined` or the empty string. -/
theorem c5_event_gating (cfg : ClientConfig) (type : Method) (req : RequestProps)
    (genKey : String) (outcome : FetchOutcome) :
    ((fetchModel cfg type req genKey outcome).events.filter
        (fun ev => ev.ptype == "processing")
      = if req.options.processingMsg.isSome then
          [{ requestKey := requestKeyOf req.options genKey, ptype := "processing",
             message := req.options.processingMsg.join }]
        else [])
    ∧ ((fetchModel cfg type req genKey outcome).events.filter
        (fun ev => ev.ptype == "success")
      = if req.options.successMsg.isSome && callSucceeds outcome then
          [{ requestKey := requestKeyOf req.options genKey, ptype := "success",
             message := req.options.successMsg.join }]
        else [])
    ∧ ((fetchModel cfg type req genKey outcome).events.filter
        (fun ev => ev.ptype == "error")
      = if req.options.errorMsg.isSome && !callSucceeds outcome then
          [{ requestKey := requestKeyOf req.options genKey, ptype := "error",
             message := req.options.errorMsg.join }]
        else []) := by
  cases hs : callSucceeds outcome with
  | false =>
    rw [fetchModel_fail cfg type req genKey outcome hs]
    simp only [catchBlock_events]
    cases req.options.processingMsg <;> cases req.options.errorMsg <;>
      cases req.options.successMsg <;> simp [reportRequestProgress]
  | true =>
    obtain ⟨r, parsed, rfl, hp, hok⟩ := callSucceeds_true hs
    rw [fetchModel_succ cfg type req genKey r parsed hp hok]
    cases req.options.processingMsg <;> cases req.options.errorMsg <;>
      cases req.options.successMsg <;> simp [reportRequestProgress]

/-- C4: a failing call resolves normally (with `undefined`) when
`propagateError` is unset and rejects with the constructed
`ResponseError` when it is set; in the store variant, a failing call
resolves normally when `consumeError` is true and rejects with the
(flattened) `ResponseError` when `consumeError` is false/unset. -/
theorem c4_propagation (cfg : ClientConfig) (type : Method) (req : RequestProps)
    (genKey : String) (r : Response) (parsed : JsValue)
    (hp : parseResponse r = .ok parsed) (hok : r.ok = false)
    (st : StoreState) (props : StateRequestProps) (r2 : Response) (parsed2 : JsValue)
    (hp2 : parseResponse r2 = .ok parsed2) (hok2 : r2.ok = false) :
    ((req.options.propagateError = false →
        (fetchModel cfg type req genKey (.resp r)).outcome = .ok .vundef)
     ∧ (req.options.propagateError = true →
        (fetchModel cfg type req genKey (.resp r)).outcome
          = .error (.respErr (mkResponseError (wrapErrorBody r parsed)))))
    ∧ ((props.consumeError = true →
          (stateRequestModel st props (storeFetchModel (.resp r2))).2 = .ok none)
       ∧ (props.consumeError = false →
          (stateRequestModel st props (storeFetchModel (.resp r2))).2
            = .error (.respErr (mkResponseErrorFlat (wrapErrorBody r2 parsed2))))) := by
  have hfail : callSucceeds (.resp r) = false := by simp [callSucceeds, hok]
  have hcaught : caughtError (.resp r)
      = .respErr (mkResponseError (wrapErrorBody r parsed)) := by
    simp [caughtError, hp]
  have hstore : storeFetchModel (.resp r2)
      = .error (.respErr (mkResponseErrorFlat (wrapErrorBody r2 parsed2))) := by
    simp [storeFetchModel, hok2, hp2]
  refine ⟨⟨fun hpe => ?_, fun hpe => ?_⟩, fun hc => ?_, fun hc => ?_⟩
  · rw [fetchModel_fail cfg type req genKey (.resp r) hfail]
    exact (catchBlock_swallow _ _ _ _ _ _ hpe).1
  · rw [fetchModel_fail cfg type req genKey (.resp r) hfail, ← hcaught]
    exact (catchBlock_propagate _ _ _ _ _ _ hpe).1
  · rw [hstore]
    simp [stateRequestModel, hc]
  · rw [hstore]
    simp [stateRequestModel, hc]

/-- C4 witness: the store variant at a concrete 404 with `consumeError`
unset rejects with the flattened `ResponseError`. -/
theorem c4_propagation_witness :
    (stateRequestModel initialStoreState { path := "/x" }
        (storeFetchModel (.resp resp404))).2
      = .error (.respErr
          { name := "Error", message := "missing", status := 404, validationErrors := [] }) := by
  have h :=
    (c4_propagation ⟨false⟩ .GET { path := "/x" } "k" resp404
        (.vobj { name := some "NotFound", message := some "missing",
                 validationErrors := some [] })
        rfl rfl initialStoreState { path := "/x" } resp404
        (.vobj { name := some "NotFound", message := some "missing",
                 validationErrors := some [] })
        rfl rfl).2.2 rfl
  exact h.trans rfl

/-- C7 counterexample: a GET call whose params include a `File` builds a
multipart body — the claim that every GET call has an absent body
fails, because `_getBody` checks for files before the method. -/
theorem c7_get_with_file_has_body :
    (fetchModel ⟨false⟩ .GET { path := "/u", params := [("f", .file "a")] } "k"
        (.thrown "offline")).request.body
      = .formDataBody [("f", .file "a")]
    ∧ (fetchModel ⟨false⟩ .GET { path := "/u", params := [("f", .file "a")] } "k"
        (.thrown "offline")).request.body ≠ .noBody := by
  refine ⟨rfl, by decide⟩

/-- C7 (amended): for every non-GET call with no file-like parameter
the body is the JSON encoding of the params and the
`Content-Type: application/json` header is set; for every call with at
least one file-like parameter the body is multipart form data and no
`Content-Type: application/json` header is set; for every GET call with
no file-like parameter the body is absent (a GET whose params include a
file-like value instead gets the multipart body). -/
theorem c7_body_and_headers (cfg : ClientConfig) (type : Method) (req : RequestProps)
    (genKey : String) (outcome : FetchOutcome) :
    ((req.params.any fun p => _isFile p.2) = false → type ≠ .GET →
        (fetchModel cfg type req genKey outcome).request.body
          = .jsonBody (jsonStringify req.params)
        ∧ ("Content-Type", "application/json")
            ∈ (fetchModel cfg type req genKey outcome).request.headers)
    ∧ ((req.params.any fun p => _isFile p.2) = true →
        (fetchModel cfg type req genKey outcome).request.body
          = .formDataBody (buildFormData req.params)
        ∧ ("Content-Type", "application/json")
            ∉ (fetchModel cfg type req genKey outcome).request.headers)
    ∧ ((req.params.any fun p => _isFile p.2) = false → type = .GET →
        (fetchModel cfg type req genKey outcome).request.body = .noBody) := by
  rw [fetchModel_request cfg type req genKey outcome]
  refine ⟨fun hf hty => ?_, fun hf => ?_, fun hf hty => ?_⟩
  · constructor
    · simp [mkRequest, _getBody, hf, bne_iff_ne, hty]
    · simp [mkRequest, mkHeaders, hf]
  · constructor
    · simp [mkRequest, _getBody, hf]
    · simp [mkRequest, mkHeaders, hf]
  · simp [mkRequest, _getBody, hf, hty]

/-- C7 witness: a concrete POST without files gets the JSON body and
header; a concrete POST with a file gets multipart and no JSON
content type. -/
theorem c7_body_and_headers_witness :
    ((fetchModel ⟨false⟩ .POST { path := "/u", params := [("a", .scalar "1")] } "k"
        (.thrown "offline")).request.body = .jsonBody (jsonStringify [("a", .scalar "1")])
      ∧ ("Content-Type", "application/json")
          ∈ (fetchModel ⟨false⟩ .POST { path := "/u", params := [("a", .scalar "1")] } "k"
              (.thrown "offline")).request.headers)
    ∧ ((fetchModel ⟨false⟩ .POST { path := "/u", params := [("f", .file "a")] } "k"
        (.thrown "offline")).request.body = .formDataBody (buildFormData [("f", .file "a")])
      ∧ ("Content-Type", "application/json")
          ∉ (fetchModel ⟨false⟩ .POST { path := "/u", params := [("f", .file "a")] } "k"
              (.thrown "offline")).request.headers) := by
  constructor
  · exact (c7_body_and_headers ⟨false⟩ .POST { path := "/u", params := [("a", .scalar "1")] }
      "k" (.thrown "offline")).1 (by decide) (by decide)
  · exact (c7_body_and_headers ⟨false⟩ .POST { path := "/u", params := [("f", .file "a")] }
      "k" (.thrown "offline")).2.1 (by decide)

/-- C8 counterexample: a successful call with `successRedirectTo` a
function returning the empty string (router configured): the function's
return value is NOT passed to `push` — `_redirectTo` drops falsy
targets — so the claimed "return value is passed to the router's push
exactly once" fails. -/
theorem c8_empty_target_not_pushed :
    (fetchModel ⟨true⟩ .POST
        { path := "/p", options := { successRedirectTo := some (.fn fun _ => "") } } "k"
        (.resp respOk)).pushes = [] := rfl

/-- C8 (amended): on a successful call with `successRedirectTo` a
function, the function's value at the parsed response body is pushed to
the router exactly once, provided a router (`history`) is configured
and the returned path is non-empty (truthy); on a failing call the
whole observable result is independent of `successRedirectTo` (the
function is never applied and no success navigation occurs); on a
successful call without the option nothing is pushed. -/
theorem c8_success_redirect_fn (cfg : ClientConfig) (type : Method) (req : RequestProps)
    (genKey : String) (outcome : FetchOutcome) :
    (∀ r parsed f, outcome = .resp r → parseResponse r = .ok parsed → r.ok = true →
        req.options.successRedirectTo = some (.fn f) → cfg.hasHistory = true →
        f parsed ≠ "" →
        (fetchModel cfg type req genKey outcome).pushes = [f parsed])
    ∧ (callSucceeds outcome = false → ∀ s,
        fetchModel cfg type
            { req with options := { req.options with successRedirectTo := s } } genKey outcome
          = fetchModel cfg type
              { req with options := { req.options with successRedirectTo := none } } genKey
              outcome)
    ∧ (∀ r parsed, outcome = .resp r → parseResponse r = .ok parsed → r.ok = true →
        req.options.successRedirectTo = none →
        (fetchModel cfg type req genKey outcome).pushes = []) := by
  refine ⟨fun r parsed f hout hp hok hsrt hh hf => ?_, fun hfail s => ?_,
    fun r parsed hout hp hok hsrt => ?_⟩
  · subst hout
    rw [fetchModel_succ cfg type req genKey r parsed hp hok]
    simp [successRedirectPushes, successRedirectTruthy, hsrt, hh, bne_iff_ne, hf]
  · rw [fetchModel_fail cfg type _ genKey outcome hfail,
      fetchModel_fail cfg type _ genKey outcome hfail]
    exact rfl
  · subst hout
    rw [fetchModel_succ cfg type req genKey r parsed hp hok]
    simp [successRedirectPushes, successRedirectTruthy, hsrt]

/-- C8 witness: a concrete successful call whose redirect function
returns `/done` pushes exactly `/done`. -/
theorem c8_success_redirect_fn_witness :
    (fetchModel ⟨true⟩ .POST
        { path := "/p", options := { successRedirectTo := some (.fn fun _ => "/done") } } "k"
        (.resp respOk)).pushes = ["/done"] := by
  exact (c8_success_redirect_fn ⟨true⟩ .POST
      { path := "/p", options := { successRedirectTo := some (.fn fun _ => "/done") } } "k"
      (.resp respOk)).1 respOk
      (.vobj { name := some "ok", message := none, validationErrors := none })
      (fun _ => "/done") rfl rfl rfl rfl rfl (by decide)


/-- C9 counterexample: starting from `successMessage = "A"`, a
successful call whose `successMessage` option is present but EMPTY does
not set the field — the gate is `if (successMessage)`, i.e. truthiness,
not presence — so the stale `"A"` survives where the claim requires the
field to be set to `""`. -/
theorem c9_empty_message_ignored :
    (stateRequestModel { successMessage := "A", errorMessage := "" }
        { path := "/x", successMessage := some "" } (.ok .vnull)).1.successMessage
      = "A" := rfl

/-- C9 (amended): the observable state starts with both messages empty;
a successful call with a NON-EMPTY `successMessage` option sets
`successMessage` and leaves `errorMessage` untouched; a failing call
with a NON-EMPTY `errorMessage` option sets `errorMessage` and leaves
`successMessage` untouched; a present-but-empty message option is
ignored (the gate is truthiness, not key presence); no call ever clears
either field, so a stale non-empty message persists until
overwritten. -/
theorem c9_store_transitions (st : StoreState) (props : StateRequestProps)
    (v : JsValue) (e : StoreError) (m : String)
    (fres : Except StoreError JsValue) :
    initialStoreState = { successMessage := "", errorMessage := "" }
    ∧ (props.successMessage = some m → m ≠ "" →
        (stateRequestModel st props (.ok v)).1
          = { successMessage := m, errorMessage := st.errorMessage })
    ∧ ((stateRequestModel st props (.ok v)).1.errorMessage = st.errorMessage)
    ∧ (props.errorMessage = some m → m ≠ "" →
        (stateRequestModel st props (.error e)).1
          = { successMessage := st.successMessage, errorMessage := m })
    ∧ ((stateRequestModel st props (.error e)).1.successMessage = st.successMessage)
    ∧ ((props.successMessage = none ∨ props.successMessage = some "") →
        (stateRequestModel st props (.ok v)).1 = st)
    ∧ ((props.errorMessage = none ∨ props.errorMessage = some "") →
        (stateRequestModel st props (.error e)).1 = st)
    ∧ (st.successMessage ≠ "" → (stateRequestModel st props fres).1.successMessage ≠ "")
    ∧ (st.errorMessage ≠ "" → (stateRequestModel st props fres).1.errorMessage ≠ "") := by
  refine ⟨rfl, fun hm hne => ?_, ?_, fun hm hne => ?_, ?_, fun hm => ?_, fun hm => ?_,
    fun hne => ?_, fun hne => ?_⟩
  · simp [stateRequestModel, hm, bne_iff_ne, hne]
  · cases hsm : props.successMessage with
    | none => simp [stateRequestModel, hsm]
    | some m2 =>
      by_cases h2 : m2 = "" <;> simp [stateRequestModel, hsm, h2]
  · simp [stateRequestModel, hm, bne_iff_ne, hne]
    cases hc : props.consumeError <;> simp
  · cases hem : props.errorMessage with
    | none =>
      cases hc : props.consumeError <;> simp [stateRequestModel, hem, hc]
    | some m2 =>
      by_cases h2 : m2 = "" <;> cases hc : props.consumeError <;>
        simp [stateRequestModel, hem, h2, hc]
  · rcases hm with hm | hm <;> simp [stateRequestModel, hm]
  · rcases hm with hm | hm <;> cases hc : props.consumeError <;>
      simp [stateRequestModel, hm, hc]
  · cases fres with
    | ok v2 =>
      cases hsm : props.successMessage with
      | none => simpa [stateRequestModel, hsm] using hne
      | some m2 =>
        by_cases h2 : m2 = ""
        · simpa [stateRequestModel, hsm, h2] using hne
        · simp [stateRequestModel, hsm, h2]
    | error e2 =>
      cases hem : props.errorMessage with
      | none =>
        cases hc : props.consumeError <;> simpa [stateRequestModel, hem, hc] using hne
      | some m2 =>
        by_cases h2 : m2 = "" <;> cases hc : props.consumeError <;>
          simpa [stateRequestModel, hem, h2, hc] using hne
  · cases fres with
    | ok v2 =>
      cases hsm : props.successMessage with
      | none => simpa [stateRequestModel, hsm] using hne
      | some m2 =>
        by_cases h2 : m2 = "" <;> simpa [stateRequestModel, hsm, h2] using hne
    | error e2 =>
      cases hem : props.errorMessage with
      | none =>
        cases hc : props.consumeError <;> simpa [stateRequestModel, hem, hc] using hne
      | some m2 =>
        by_cases h2 : m2 = ""
        · cases hc : props.consumeError <;> simpa [stateRequestModel, hem, h2, hc] using hne
        · cases hc : props.consumeError <;> simp [stateRequestModel, hem, h2, hc]

/-- C9 witness: from the initial state, a successful call with a
non-empty success message yields that message with `errorMessage`
still empty. -/
theorem c9_store_transitions_witness :
    (stateRequestModel initialStoreState
        { path := "/x", successMessage := some "Saved" } (.ok .vnull)).1
      = { successMessage := "Saved", errorMessage := "" } := by
  exact (c9_store_transitions initialStoreState
      { path := "/x", successMessage := some "Saved" } .vnull (.jsErr "e") "Saved"
      (.ok .vnull)).2.1 rfl (by decide)

/-- Every entry of a list appended by the indexed `forEach` loop lands
in the form data under the field name `k[i + j]` for its position `j`. -/
theorem mem_indexFiles (k : String) :
    ∀ (l : List ParamEntry) (i j : Nat) (hj : j < l.length),
      (k ++ "[" ++ toString (i + j) ++ "]", entryToValue (l.get ⟨j, hj⟩))
        ∈ indexFiles k i l := by
  intro l
  induction l with
  | nil => intro i j hj; simp at hj
  | cons a rest ih =>
    intro i j hj
    cases j with
    | zero => simp [indexFiles]
    | succ j' =>
      have h1 : i + (j' + 1) = (i + 1) + j' := by omega
      have h2 := ih (i + 1) j' (Nat.lt_of_succ_lt_succ hj)
      simp only [indexFiles, List.mem_cons]
      right
      rw [h1]
      simpa using h2

/-- A file-bearing array parameter contributes all of its entries to the
form data under indexed field names. -/
theorem mem_buildFormData_indexed (params : List (String × ParamValue)) (k : String)
    (l : List ParamEntry) (j : Nat) (hj : j < l.length)
    (hmem : (k, ParamValue.arr l) ∈ params) (hfile : l.any entryIsFile = true) :
    (k ++ "[" ++ toString j ++ "]", entryToValue (l.get ⟨j, hj⟩)) ∈ buildFormData params := by
  unfold buildFormData
  rw [List.mem_flatten]
  refine ⟨indexFiles k 0 l, ?_, ?_⟩
  · have heq :
        (fun p : String × ParamValue =>
          match p.2 with
          | .arr l2 => if _isFile (.arr l2) then indexFiles p.1 0 l2 else [p]
          | _ => [p]) (k, ParamValue.arr l) = indexFiles k 0 l := by
      simp [_isFile, hfile]
    exact heq ▸ List.mem_map_of_mem _ hmem
  · have h := mem_indexFiles k l 0 j hj
    simpa using h

/-- A parameter that is not a file-bearing array is appended to the form
data as is. -/
theorem mem_buildFormData_plain (params : List (String × ParamValue)) (k : String)
    (v : ParamValue) (hmem : (k, v) ∈ params)
    (h : ∀ l, v = ParamValue.arr l → l.any entryIsFile = false) :
    (k, v) ∈ buildFormData params := by
  unfold buildFormData
  rw [List.mem_flatten]
  refine ⟨[(k, v)], ?_, by simp⟩
  have heq :
      (fun p : String × ParamValue =>
        match p.2 with
        | .arr l2 => if _isFile (.arr l2) then indexFiles p.1 0 l2 else [p]
        | _ => [p]) (k, v) = [(k, v)] := by
    cases v with
    | file s => rfl
    | scalar s => rfl
    | arr l => simp [_isFile, h l rfl]
  exact heq ▸ List.mem_map_of_mem _ hmem

/-- C10: a parameter is file-like when it is a `File` or an array with
at least one `File` entry; when such a (possibly mixed) array is
present, the whole call goes out as multipart form data, every entry of
the array — `File` or not — is appended under the indexed field names
`name[0]`, `name[1]`, …, and every other non-file-array parameter is
also sent as a form field under its own name rather than as JSON. -/
theorem c10_mixed_file_array (cfg : ClientConfig) (type : Method) (req : RequestProps)
    (genKey : String) (outcome : FetchOutcome) (k s : String) (l : List ParamEntry)
    (hmem : (k, ParamValue.arr l) ∈ req.params) (hfile : l.any entryIsFile = true) :
    _isFile (.file s) = true
    ∧ (_isFile (.arr l) = true ↔ ∃ en ∈ l, entryIsFile en = true)
    ∧ _isFile (.arr l) = true
    ∧ (fetchModel cfg type req genKey outcome).request.body
        = .formDataBody (buildFormData req.params)
    ∧ (∀ j (hj : j < l.length),
        (k ++ "[" ++ toString j ++ "]", entryToValue (l.get ⟨j, hj⟩))
          ∈ buildFormData req.params)
    ∧ (∀ k2 v2, (k2, v2) ∈ req.params →
        (∀ l2, v2 = ParamValue.arr l2 → l2.any entryIsFile = false) →
        (k2, v2) ∈ buildFormData req.params) := by
  have hany : (req.params.any fun p => _isFile p.2) = true := by
    rw [List.any_eq_true]
    exact ⟨(k, ParamValue.arr l), hmem, by simpa [_isFile] using hfile⟩
  refine ⟨rfl, ?_, by simpa [_isFile] using hfile, ?_, ?_, ?_⟩
  · simp [_isFile, List.any_eq_true]
  · rw [fetchModel_request cfg type req genKey outcome]
    simp [mkRequest, _getBody, hany]
  · intro j hj
    exact mem_buildFormData_indexed req.params k l j hj hmem hfile
  · intro k2 v2 hm2 hna
    exact mem_buildFormData_plain req.params k2 v2 hm2 hna

/-- C10 witness: a concrete mixed array `docs = [File, "x"]` sent with a
plain parameter `note`: the non-`File` entry is appended as `docs[1]`
and `note` stays a plain form field, with the whole body multipart. -/
theorem c10_mixed_file_array_witness :
    ("docs" ++ "[" ++ toString 1 ++ "]",
        entryToValue (ParamEntry.escalar "x"))
      ∈ buildFormData [("docs", .arr [.efile "f1", .escalar "x"]), ("note", .scalar "n")]
    ∧ ("note", ParamValue.scalar "n")
      ∈ buildFormData [("docs", .arr [.efile "f1", .escalar "x"]), ("note", .scalar "n")] := by
  have h := c10_mixed_file_array ⟨false⟩ .POST
    { path := "/p",
      params := [("docs", .arr [.efile "f1", .escalar "x"]), ("note", .scalar "n")] } "k"
    (.thrown "offline") "docs" "s0" [.efile "f1", .escalar "x"] (by decide) (by decide)
  constructor
  · exact h.2.2.2.2.1 1 (by decide)
  · exact h.2.2.2.2.2 "note" (.scalar "n") (by decide) (by intro l2 hl2; cases hl2)
